import Mathlib

/-!
Verification of the esb execution protocol and its surrounding orchestration.

The embedding models the Python sources:
  * `src/esb/protocol/fireplacev1_0.py` — the protocol runner (`exec_protocol`,
    `_exec_protocol_command`, `_read_output`, `_parse_running_time`);
  * `src/esb/commands/test.py` — the test orchestrator (`Test.execute`,
    `Test.test_day`);
  * `src/esb/db.py` — the table persistence helpers (`Table.update`,
    `Table.find`, `Table.find_one`, `Table.find_single`).

Python strings are modelled as `List Char`; the string helpers below
(`pyStrip`, `pySplitNl`, `pySplitWs`, `pyInt`) reproduce the semantics of
`str.strip()`, `str.split("\n")`, `str.split()` and `int(...)` as used by the
sources.  Subprocess execution is modelled by an oracle mapping the launched
command and the piped input to the child's outcome; emitted terminal lines and
launched commands are collected in explicit logs.
-/

namespace Esb

/-! ## Python string primitives -/

/-- Python whitespace characters, as recognised by `str.strip()` and
`str.split()` on ASCII input. -/
def pyIsSpace (c : Char) : Bool :=
  c = ' ' || c = '\t' || c = '\n' || c = '\r' || c = '\x0b' || c = '\x0c'

/-- Left part of Python `str.strip()`: drop leading whitespace. -/
def pyStripLeft (s : List Char) : List Char :=
  s.dropWhile pyIsSpace

/-- Right part of Python `str.strip()`: drop trailing whitespace. -/
def pyStripRight (s : List Char) : List Char :=
  (s.reverse.dropWhile pyIsSpace).reverse

/-- Python `str.strip()`: drop leading and trailing whitespace. -/
def pyStrip (s : List Char) : List Char :=
  pyStripRight (pyStripLeft s)

/-- Python `str.split("\n")`: split on every newline, keeping empty fields.
The result is never the empty list (`"".split("\n") == [""]`). -/
def pySplitNl : List Char → List (List Char)
  | [] => [[]]
  | c :: rest =>
    match pySplitNl rest with
    | [] => [[]]
    | l :: ls => if c = '\n' then [] :: l :: ls else (c :: l) :: ls

/-- Helper for `pySplitWs`: accumulate the current word (reversed). -/
def pySplitWsAux : List Char → List Char → List (List Char)
  | cur, [] => if cur.isEmpty then [] else [cur.reverse]
  | cur, c :: rest =>
    if pyIsSpace c then
      if cur.isEmpty then pySplitWsAux [] rest
      else cur.reverse :: pySplitWsAux [] rest
    else pySplitWsAux (c :: cur) rest

/-- Python `str.split()` with no argument: split on runs of whitespace,
dropping empty fields. -/
def pySplitWs (s : List Char) : List (List Char) :=
  pySplitWsAux [] s

/-- Digit-and-underscore tail of a Python integer literal: an underscore must
be followed by a digit, and the token must end in a digit. -/
def pyDigitsAux : Nat → List Char → Option Nat
  | acc, [] => some acc
  | acc, '_' :: c :: rest =>
    if c.isDigit then pyDigitsAux (acc * 10 + (c.toNat - 48)) rest else none
  | acc, c :: rest =>
    if c.isDigit then pyDigitsAux (acc * 10 + (c.toNat - 48)) rest else none

/-- Unsigned part of Python `int(...)`: a non-empty digit string with optional
single underscores between digits. -/
def pyNat : List Char → Option Nat
  | [] => none
  | c :: rest => if c.isDigit then pyDigitsAux (c.toNat - 48) rest else none

/-- Python `int(token)` on a whitespace-free token: optional sign followed by
digits. -/
def pyInt : List Char → Option Int
  | '+' :: rest => (pyNat rest).map (fun n => (n : Int))
  | '-' :: rest => (pyNat rest).map (fun n => -(n : Int))
  | s => (pyNat s).map (fun n => (n : Int))

/-- The chunks returned by successive `stream.readline()` calls in
`_read_output`: each chunk ends at a newline (inclusive); a trailing chunk
without a newline is still one chunk. -/
def readLines : List Char → List (List Char)
  | [] => []
  | c :: rest =>
    if c = '\n' then ['\n'] :: readLines rest
    else
      match readLines rest with
      | [] => [[c]]
      | l :: ls => (c :: l) :: ls

/-! ## MetricPrefix -/

/-- Modelled from the spec: the module `esb.protocol.metric_prefix` is not
under src/.  Spec sections 3, 4.1 and 6: an enum over nano, micro, milli and
the base unit. -/
inductive MetricPrefix where
  | nano
  | micro
  | milli
  | unit
deriving DecidableEq, Repr

/-- Modelled from the spec: `MetricPrefix.parse` accepts the suffixes `ns`,
`us`, `µs` (micro-sign variant), `ms`, and the caller-supplied base unit name
and suffix; every other token is a parse failure (`none`). -/
def MetricPrefix.parse (token base_name base_suffix : List Char) :
    Option MetricPrefix :=
  if token = "ns".data then some MetricPrefix.nano
  else if token = "us".data || token = "µs".data then some MetricPrefix.micro
  else if token = "ms".data then some MetricPrefix.milli
  else if token = base_name || token = base_suffix then some MetricPrefix.unit
  else none

/-! ## Protocol runner (`fireplacev1_0.py`) -/

deriving instance DecidableEq for Except

/-- `FPStatus` from `fireplacev1_0.py`. -/
inductive FPStatus where
  | Ok
  | InputDoesNotExists
  | ProtocolError
deriving DecidableEq, Repr

/-- `FPResult` from `fireplacev1_0.py`: all optional fields default to
`None`. -/
structure FPResult where
  status : FPStatus
  answer : Option (List Char) := none
  running_time : Option Int := none
  unit : Option MetricPrefix := none
deriving DecidableEq, Repr

/-- Outcome of launching the child process: either the child's standard input
could not be established (`proc.stdin is None`), or the child ran to
completion with an exit code and a captured stdout text. -/
inductive LaunchOutcome where
  | stdinFailed
  | completed (exitcode : Int) (stdout : List Char)

/-- `_read_output`: drain the child's stdout, returning the accumulated text
and the number of `readline` chunks.  The live echo to the orchestrator's
stdout is a side effect with no bearing on the returned value. -/
def _read_output (stream : List Char) : List Char × Nat :=
  ((readLines stream).foldl (fun a l => a ++ l) [], (readLines stream).length)

/-- `_exec_protocol_command`: launch the command via the subprocess oracle
`run` (which receives the command and the piped input).  When the child's
stdin cannot be established a `RuntimeError` is raised, modelled as
`Except.error`. -/
def _exec_protocol_command (run : List String → List Char → LaunchOutcome)
    (cmd : List String) (day_input : List Char) :
    Except String (Int × (List Char × Nat)) :=
  match run cmd day_input with
  | LaunchOutcome.stdinFailed => Except.error "Could not open stdin"
  | LaunchOutcome.completed exitcode stdout =>
    Except.ok (exitcode, _read_output stdout)

/-- `_parse_running_time`: the line must split into the three tokens
`RT <integer> <unit>`; failure (modelling the raised `ValueError`) is
`none`. -/
def _parse_running_time (running_time_line : List Char) :
    Option (Int × MetricPrefix) :=
  match pySplitWs running_time_line with
  | [rt, running_time_str, unit_str] =>
    if rt = "RT".data then
      match pyInt running_time_str,
          MetricPrefix.parse unit_str "second".data "s".data with
      | some running_time, some u => some (running_time, u)
      | _, _ => none
    else none
  | _ => none

/-- `exec_protocol`: `day_input = none` models a path that is not an existing
regular file.  The second component of the result is the log of launched
commands (empty when no child process is spawned).  A raised `RuntimeError`
surfaces as `Except.error`. -/
def exec_protocol (run : List String → List Char → LaunchOutcome)
    (command : List String) (part : Nat) (day_input : Option (List Char)) :
    Except String FPResult × List (List String) :=
  match day_input with
  | none => (Except.ok { status := FPStatus.InputDoesNotExists }, [])
  | some input =>
    let cmd := command ++ ["--part", toString part]
    match _exec_protocol_command run cmd input with
    | Except.error e => (Except.error e, [cmd])
    | Except.ok (exitcode, (stdout, out_lines)) =>
      if exitcode ≠ 0 ∨ ¬(out_lines = 1 ∨ out_lines = 2) then
        (Except.ok { status := FPStatus.ProtocolError }, [cmd])
      else
        match pySplitNl (pyStrip stdout) with
        | [ans, running_time_line] =>
          match _parse_running_time running_time_line with
          | some (running_time, u) =>
            (Except.ok { status := FPStatus.Ok, answer := some ans,
                         running_time := some running_time, unit := some u },
             [cmd])
          | none => (Except.ok { status := FPStatus.ProtocolError }, [cmd])
        | [ans] =>
          (Except.ok { status := FPStatus.Ok, answer := some ans }, [cmd])
        | _ => (Except.ok { status := FPStatus.ProtocolError }, [cmd])

/-! ## Test orchestrator (`commands/test.py`)

`Test.test_day` consults collaborators that live outside the protocol core
(`esb.paths`, `esb.langs`, and the runner module `esb.protocol.fireplace`);
they are abstracted as components of an environment record: `find_solution`
and `find_tests` resolve solution files and fixtures, and `runFP` is the
oracle for the per-test-case Protocol Runner invocation (its `Except.error`
case models a raised launch-time exception).  Emitted terminal lines
(`eprint_info` / `eprint_error`) and runner invocations are collected in
explicit logs. -/

/-- A fixture's expected answer may be any value; the orchestrator coerces it
to text with `str(...)`.  Strings and integers cover the fixture formats. -/
inductive PyVal where
  | vstr (s : List Char)
  | vint (n : Int)
deriving DecidableEq, Repr

/-- Python `str(...)` on a fixture value. -/
def pyStr : PyVal → List Char
  | PyVal.vstr s => s
  | PyVal.vint n => (toString n).data

/-- A test fixture: input payload, optional argument list, expected answer. -/
structure TestCase where
  input : List Char
  args : Option (List (List Char)) := none
  answer : PyVal
deriving DecidableEq, Repr

/-- A runner invocation key: (year, day, part, test-case name). -/
abbrev Invocation := Nat × Nat × Nat × List Char

/-- The orchestrator's collaborators, abstracted. -/
structure OrchEnv where
  langName : List Char
  find_solution : Nat → Nat → Bool
  find_tests : Nat → Nat → Nat → List (List Char × TestCase)
  runFP : Nat → Nat → Nat → List Char → TestCase → Except String FPResult

/-- Python `==` between `result.answer : str | None` and the coerced expected
answer (`None == s` is `False`). -/
def optAnswerEq : Option (List Char) → List Char → Bool
  | some a, s => a = s
  | none, _ => false

/-- Python f-string rendering of `result.answer` (`None` prints as such). -/
def fmtAnswer : Option (List Char) → List Char
  | some a => a
  | none => "None".data

/-- `pad_day` from `esb.paths` (zero-pad the day to two digits). -/
def pad_day (d : Nat) : List Char :=
  if d < 10 then '0' :: (toString d).data else (toString d).data

/-- The `eprint_info` progress line printed before each test case runs. -/
def testingLine (env : OrchEnv) (year day part : Nat) : List Char :=
  "Testing solution for: ".data ++ env.langName ++ ", year ".data ++
    (toString year).data ++ " day ".data ++ pad_day day ++ " part ".data ++
    (toString part).data

/-- The single outcome line the per-test-case `match` emits. -/
def outcomeLine (part : Nat) (name : List Char) (tc : TestCase)
    (result : FPResult) : List Char :=
  if result.status = FPStatus.Ok then
    if optAnswerEq result.answer (pyStr tc.answer) then
      "✔ Answer ".data ++ name ++ " pt".data ++ (toString part).data ++
        ": ".data ++ fmtAnswer result.answer
    else
      "✘ Answer ".data ++ name ++ " pt".data ++ (toString part).data ++
        ": ".data ++ fmtAnswer result.answer ++ ". Expected: ".data ++
        pyStr tc.answer
  else
    "✘ Could not run ".data ++ name

/-- The `for name, test in tests` loop of `Test.test_day`: emitted lines,
runner invocations, and the first propagated exception (which stops the
loop). -/
def runTests (env : OrchEnv) (year day part : Nat) :
    List (List Char × TestCase) →
      List (List Char) × List Invocation × Option String
  | [] => ([], [], none)
  | (name, tc) :: rest =>
    match env.runFP year day part name tc with
    | Except.error e =>
      ([testingLine env year day part], [(year, day, part, name)], some e)
    | Except.ok result =>
      let (ls, invs, err) := runTests env year day part rest
      (testingLine env year day part :: outcomeLine part name tc result :: ls,
       (year, day, part, name) :: invs, err)

/-- `Test.test_day`: skip silently when no solution source exists or when the
fixture list is empty; otherwise run every declared test case. -/
def test_day (env : OrchEnv) (year day part : Nat) :
    List (List Char) × List Invocation × Option String :=
  if ¬ env.find_solution year day then ([], [], none)
  else if env.find_tests year day part = [] then ([], [], none)
  else runTests env year day part (env.find_tests year day part)

/-- `itertools.product(years, days, parts)` in the source's nested order. -/
def tupleProduct (years days parts : List Nat) : List (Nat × Nat × Nat) :=
  years.foldr
    (fun y acc =>
      days.foldr
        (fun d acc2 => parts.foldr (fun p acc3 => (y, d, p) :: acc3) acc2)
        acc)
    []

/-- The `for year, day, part in product(...)` loop of `Test.execute`: there is
no exception handler, so a propagated error stops the loop. -/
def executeLoop (env : OrchEnv) :
    List (Nat × Nat × Nat) →
      List (List Char) × List Invocation × Option String
  | [] => ([], [], none)
  | (y, d, p) :: ts =>
    match test_day env y d p with
    | (ls, invs, some e) => (ls, invs, some e)
    | (ls, invs, none) =>
      let (ls2, invs2, err) := executeLoop env ts
      (ls ++ ls2, invs ++ invs2, err)

/-- `Test.execute`. -/
def Test_execute (env : OrchEnv) (years days parts : List Nat) :
    List (List Char) × List Invocation × Option String :=
  executeLoop env (tupleProduct years days parts)

/-- A report line in the sense of the spec's outcome reporting: a pass/fail
line (the progress line printed before each run is not one). -/
def isReportLine : List Char → Bool
  | c :: _ => c = '✔' || c = '✘'
  | [] => false

/-- The report lines among a list of emitted lines. -/
def reportLines (ls : List (List Char)) : List (List Char) :=
  ls.filter isReportLine

/-! ## Table persistence (`db.py`)

Rows and the dictionaries passed to `find`/`update` are ordered association
lists from column names to values; the sqlite connection is modelled as a
symbolic state holding the bound flag, the log of executed SQL query strings,
and the table's rows. -/

/-- A row or parameter dictionary: ordered (column, value) pairs. -/
abbrev Row := List (String × PyVal)

/-- Dictionary lookup by column name. -/
def lookupd (d : Row) (k : String) : Option PyVal :=
  (d.find? (fun kv => kv.1 = k)).map Prod.snd

/-- Python dict merge `a | b`: values of `b` override those of `a`; keys only
in `b` are appended. -/
def dictMerge (a b : Row) : Row :=
  a.map (fun kv => (kv.1, (lookupd b kv.1).getD kv.2)) ++
    b.filter (fun kv => (lookupd a kv.1).isNone)

/-- `Table.query_named_placeholders`: join `column = :column` pieces. -/
def query_named_placeholders (values : List String) (sep : String) : String :=
  String.intercalate sep (values.map (fun c => c ++ " = :" ++ c))

/-- The shape of the UPDATE statement `Table.update` issues: which columns end
up in the SET clause, which in the WHERE clause, and the parameter
dictionary the statement is executed with. -/
structure UpdateQuery where
  table : String
  set_columns : List String
  where_columns : List String
  params : Row
deriving DecidableEq, Repr

/-- `Table.update(key)` from `db.py`: `d = self.to_dict() | key`; the WHERE
clause is built from the columns of `d` that are not in `key`, and the SET
clause from the columns of `key`. -/
def Table.update (tableName : String) (row key : Row) : UpdateQuery :=
  let d := dictMerge row key
  let where_values := d.filter (fun kv => (lookupd key kv.1).isNone)
  { table := tableName,
    set_columns := key.map Prod.fst,
    where_columns := where_values.map Prod.fst,
    params := d }

/-- Modelled from the spec: the intended update contract (design note in the
spec) — the WHERE clause is built from the caller-supplied key columns and
the SET clause from all other columns of the row. -/
def Table.update_intended (tableName : String) (row key : Row) : UpdateQuery :=
  let d := dictMerge row key
  let set_values := d.filter (fun kv => (lookupd key kv.1).isNone)
  { table := tableName,
    set_columns := set_values.map Prod.fst,
    where_columns := key.map Prod.fst,
    params := d }

/-- A row satisfies `col = :col` for every listed column. -/
def rowMatches (r : Row) (cols : List String) (params : Row) : Bool :=
  cols.all (fun c => decide (lookupd r c = lookupd params c))

/-- Sqlite semantics of the generated UPDATE: set the SET columns (to the
bound parameter values) on every row matching the WHERE clause. -/
def applyUpdate (q : UpdateQuery) (db : List Row) : List Row :=
  db.map (fun r =>
    if rowMatches r q.where_columns q.params then
      r.map (fun kv =>
        if q.set_columns.contains kv.1 then
          (kv.1, (lookupd q.params kv.1).getD kv.2)
        else kv)
    else r)

/-- The symbolic sqlite connection a `Table` subclass is bound to: the bound
flag, the log of executed SQL query strings, and the table contents. -/
structure SqlState where
  bound : Bool
  executed : List String
  rows : List Row
deriving DecidableEq, Repr

/-- `Table.find`: reject an unbound table, then an empty match dictionary
(`ValueError`, before any SQL runs); otherwise execute the SELECT and return
the matching rows. -/
def Table.find (tableName : String) (matchd : Row) (st : SqlState) :
    Except String (List Row) × SqlState :=
  if ¬ st.bound then
    (Except.error "Table not bound to any SqlConnection", st)
  else if matchd.length = 0 then
    (Except.error "find received an empty dictionary", st)
  else
    let query := "SELECT * FROM " ++ tableName ++ " WHERE " ++
      query_named_placeholders (matchd.map Prod.fst) " AND "
    (Except.ok (st.rows.filter (fun r => rowMatches r (matchd.map Prod.fst) matchd)),
     { st with executed := st.executed ++ [query] })

/-- `Table.find_one`: same checks, `LIMIT 1` query, first matching row. -/
def Table.find_one (tableName : String) (matchd : Row) (st : SqlState) :
    Except String (Option Row) × SqlState :=
  if ¬ st.bound then
    (Except.error "Table not bound to any SqlConnection", st)
  else if matchd.length = 0 then
    (Except.error "find received an empty dictionary", st)
  else
    let query := "SELECT * FROM " ++ tableName ++ " WHERE " ++
      query_named_placeholders (matchd.map Prod.fst) " AND " ++ " LIMIT 1"
    (Except.ok (st.rows.filter (fun r => rowMatches r (matchd.map Prod.fst) matchd)).head?,
     { st with executed := st.executed ++ [query] })

/-- `Table.find_single`: delegate to `find`; zero rows is `none`, one row is
returned, more raise a `RuntimeError`. -/
def Table.find_single (tableName : String) (matchd : Row) (st : SqlState) :
    Except String (Option Row) × SqlState :=
  match Table.find tableName matchd st with
  | (Except.error e, st2) => (Except.error e, st2)
  | (Except.ok rows, st2) =>
    match rows with
    | [] => (Except.ok none, st2)
    | [r] => (Except.ok (some r), st2)
    | _ =>
      (Except.error
        ("Table " ++ tableName ++ " should have found one or zero rows"), st2)

/-! ## Concrete scenarios used by counterexamples and witnesses -/

/-- A fixture expecting the answer `7`. -/
def tc7 : TestCase :=
  { input := "inp".data, answer := PyVal.vstr "7".data }

/-- An environment whose runner returns `Ok` with answer `7` for every test
case; one fixture named `case 1`. -/
def envC6 : OrchEnv :=
  { langName := "python".data,
    find_solution := fun _ _ => true,
    find_tests := fun _ _ _ => [("case 1".data, tc7)],
    runFP := fun _ _ _ _ _ =>
      Except.ok { status := FPStatus.Ok, answer := some "7".data } }

/-- An environment with no solution sources at all. -/
def envC7 : OrchEnv :=
  { langName := "python".data,
    find_solution := fun _ _ => false,
    find_tests := fun _ _ _ => [],
    runFP := fun _ _ _ _ _ => Except.ok { status := FPStatus.Ok } }

/-- An environment whose runner raises the launch failure (cannot establish
the child's standard input) on day 1 and succeeds on every other day. -/
def envC5 : OrchEnv :=
  { langName := "python".data,
    find_solution := fun _ _ => true,
    find_tests := fun _ _ _ => [("t".data, tc7)],
    runFP := fun _ d _ _ _ =>
      if d = 1 then Except.error "Could not open stdin"
      else Except.ok { status := FPStatus.Ok, answer := some "7".data } }

/-- The database row of `tests/test_db.py::test_update` before the update. -/
def row0_db : Row :=
  [("idx", PyVal.vint 1), ("value", PyVal.vint 123),
   ("text", PyVal.vstr "abc".data)]

/-- The updated object of `tests/test_db.py::test_update` (value changed to
321); the test asserts the stored row equals it after
`update(key={"idx": 1})`. -/
def row0_copy : Row :=
  [("idx", PyVal.vint 1), ("value", PyVal.vint 321),
   ("text", PyVal.vstr "abc".data)]

/-- A bound connection with an empty query log. -/
def stW : SqlState := { bound := true, executed := [], rows := [] }

/-! ## Helper lemmas about the string primitives -/

lemma readLines_append_nl (a : List Char) (rest : List Char) (h : '\n' ∉ a) :
    readLines (a ++ '\n' :: rest) = (a ++ ['\n']) :: readLines rest := by
  induction a with
  | nil => simp [readLines]
  | cons c a ih =>
    have hc : c ≠ '\n' := fun e => h (e ▸ List.mem_cons_self c a)
    have h2 : '\n' ∉ a := fun hm => h (List.mem_cons_of_mem _ hm)
    simp only [List.cons_append, readLines, if_neg hc, List.append_eq, ih h2]

lemma pySplitNl_ne_nil (s : List Char) : pySplitNl s ≠ [] := by
  induction s with
  | nil => simp [pySplitNl]
  | cons c rest ih =>
    simp only [pySplitNl]
    rcases hr : pySplitNl rest with _ | ⟨l, ls⟩
    · simp
    · by_cases hc : c = '\n' <;> simp [hc]

lemma pySplitNl_no_nl (a : List Char) (h : '\n' ∉ a) : pySplitNl a = [a] := by
  induction a with
  | nil => rfl
  | cons c a ih =>
    have hc : c ≠ '\n' := fun e => h (e ▸ List.mem_cons_self c a)
    have h2 : '\n' ∉ a := fun hm => h (List.mem_cons_of_mem _ hm)
    simp only [pySplitNl, ih h2, if_neg hc]

lemma pySplitNl_append_nl (a rest : List Char) (h : '\n' ∉ a) :
    pySplitNl (a ++ '\n' :: rest) = a :: pySplitNl rest := by
  induction a with
  | nil =>
    rcases hr : pySplitNl rest with _ | ⟨l, ls⟩
    · exact absurd hr (pySplitNl_ne_nil rest)
    · simp [pySplitNl, hr]
  | cons c a ih =>
    have hc : c ≠ '\n' := fun e => h (e ▸ List.mem_cons_self c a)
    have h2 : '\n' ∉ a := fun hm => h (List.mem_cons_of_mem _ hm)
    simp only [List.cons_append, pySplitNl, List.append_eq, ih h2, if_neg hc]

lemma dropWhile_append_of_hd (x y : List Char)
    (hx : x.dropWhile pyIsSpace = x) (hne : x ≠ []) :
    (x ++ y).dropWhile pyIsSpace = x ++ y := by
  cases x with
  | nil => exact absurd rfl hne
  | cons c t =>
    rw [List.dropWhile_append, hx]
    rfl

lemma pyStripRight_rev_dropWhile (w : List Char) (hw : pyStripRight w = w) :
    w.reverse.dropWhile pyIsSpace = w.reverse := by
  have h := congrArg List.reverse hw
  simpa [pyStripRight] using h

lemma pyStripRight_append (x w : List Char)
    (hw : pyStripRight w = w) (hne : w ≠ []) :
    pyStripRight (x ++ w) = x ++ w := by
  have h1 := pyStripRight_rev_dropWhile w hw
  have h2 : w.reverse ≠ [] := by simpa using hne
  unfold pyStripRight
  rw [List.reverse_append, dropWhile_append_of_hd _ _ h1 h2]
  simp

lemma pyStripRight_append_space (s : List Char) (c : Char)
    (hc : pyIsSpace c = true) : pyStripRight (s ++ [c]) = pyStripRight s := by
  unfold pyStripRight
  rw [List.reverse_append]
  simp [List.dropWhile_cons, hc]

lemma pyStripLeft_append (x y : List Char)
    (hx : pyStripLeft x = x) (hne : x ≠ []) :
    pyStripLeft (x ++ y) = x ++ y :=
  dropWhile_append_of_hd x y hx hne

lemma pyStrip_append_nl (line : List Char) :
    pyStrip (line ++ ['\n']) = pyStrip line := by
  unfold pyStrip pyStripLeft
  rw [List.dropWhile_append]
  by_cases h : (line.dropWhile pyIsSpace).isEmpty = true
  · rw [if_pos h]
    have h0 : List.dropWhile pyIsSpace ['\n'] = ([] : List Char) := rfl
    have h1 : line.dropWhile pyIsSpace = [] := by
      cases hd : line.dropWhile pyIsSpace with
      | nil => rfl
      | cons a l => rw [hd] at h; simp [List.isEmpty] at h
    rw [h0, h1]
  · rw [if_neg h]
    exact pyStripRight_append_space _ '\n' (by decide)

lemma pyStrip_two_lines (ans rt : List Char)
    (h1 : pyStripLeft ans = ans) (h1n : ans ≠ [])
    (h2 : pyStripRight rt = rt) (h2n : rt ≠ []) :
    pyStrip (ans ++ '\n' :: (rt ++ ['\n'])) = ans ++ '\n' :: rt := by
  have e1 : ans ++ '\n' :: (rt ++ ['\n']) = (ans ++ '\n' :: rt) ++ ['\n'] := by
    simp
  rw [e1, pyStrip_append_nl]
  unfold pyStrip
  rw [pyStripLeft_append ans _ h1 h1n]
  have e2 : ans ++ '\n' :: rt = (ans ++ ['\n']) ++ rt := by simp
  rw [e2, pyStripRight_append _ rt h2 h2n]

lemma mem_pyStrip (c : Char) (s : List Char) (h : c ∈ pyStrip s) : c ∈ s := by
  unfold pyStrip pyStripRight pyStripLeft at h
  rw [List.mem_reverse] at h
  have h2 := (List.dropWhile_suffix (l := (s.dropWhile pyIsSpace).reverse)
    pyIsSpace).subset h
  rw [List.mem_reverse] at h2
  exact (List.dropWhile_suffix pyIsSpace).subset h2

/-! ## Claims about the protocol runner -/

/-- C1: when the input file exists and the child runs to completion, a nonzero
exit code or a captured stdout line count other than 1 or 2 yields a result
with status `ProtocolError` whose answer, running_time and unit are all
`none`. -/
theorem exec_protocol_protocolError_unset
    (run : List String → List Char → LaunchOutcome)
    (command : List String) (part : Nat) (input : List Char)
    (exitcode : Int) (stdout : List Char)
    (hrun : run (command ++ ["--part", toString part]) input =
      LaunchOutcome.completed exitcode stdout)
    (hbad : exitcode ≠ 0 ∨
      ¬((readLines stdout).length = 1 ∨ (readLines stdout).length = 2)) :
    exec_protocol run command part (some input) =
      (Except.ok { status := FPStatus.ProtocolError, answer := none,
                   running_time := none, unit := none },
       [command ++ ["--part", toString part]]) := by
  simp only [exec_protocol, _exec_protocol_command, hrun, _read_output]
  rw [if_pos hbad]

/-- Closed witness for C1: a child exiting 1 with one stdout line yields
`ProtocolError` with every optional field unset. -/
theorem exec_protocol_protocolError_unset_witness :
    exec_protocol (fun _ _ => LaunchOutcome.completed 1 "42\n".data)
        ["sol"] 1 (some "in".data) =
      (Except.ok { status := FPStatus.ProtocolError, answer := none,
                   running_time := none, unit := none },
       [["sol"] ++ ["--part", toString 1]]) :=
  exec_protocol_protocolError_unset _ ["sol"] 1 "in".data 1 "42\n".data rfl
    (Or.inl (by decide))

/-- C4: when `day_input` does not refer to an existing regular file, the
result status is `InputDoesNotExists` and the launch log is empty — no child
process is spawned. -/
theorem exec_protocol_input_missing
    (run : List String → List Char → LaunchOutcome)
    (command : List String) (part : Nat) :
    exec_protocol run command part none =
      (Except.ok { status := FPStatus.InputDoesNotExists, answer := none,
                   running_time := none, unit := none },
       []) := rfl

/-- C8: every invocation that reaches the launch step executes exactly the
caller-supplied argv followed by `--part` and the decimal rendering of the
part, whatever the child then does. -/
theorem exec_protocol_command_argv
    (run : List String → List Char → LaunchOutcome)
    (command : List String) (part : Nat) (input : List Char) :
    (exec_protocol run command part (some input)).2 =
      [command ++ ["--part", toString part]] := by
  simp only [exec_protocol, _exec_protocol_command]
  rcases run (command ++ ["--part", toString part]) input with _ | ⟨ec, so⟩
  · rfl
  · simp only []
    split
    · rfl
    · split
      · split <;> rfl
      · rfl
      · rfl

/-- C2, counterexample: a child exiting 0 with stdout consisting of exactly
two captured lines — a blank line then `42` — has a second line that does not
parse as `RT <integer> <unit>`; the claim demands `ProtocolError`, but the
code strips and re-splits the captured text and returns `Ok` with answer `42`
and no timing. -/
theorem exec_protocol_two_lines_counterexample :
    exec_protocol (fun _ _ => LaunchOutcome.completed 0 "\n42\n".data)
        ["sol"] 1 (some "in".data) =
      (Except.ok { status := FPStatus.Ok, answer := some "42".data,
                   running_time := none, unit := none },
       [["sol", "--part", "1"]]) ∧
    (readLines "\n42\n".data).length = 2 ∧
    _parse_running_time "42".data = none := by
  refine ⟨by decide, by decide, by decide⟩

/-- C2, amended: when the child exits 0 and its stdout is two newline-termi-
nated lines, the first nonempty and not starting with whitespace, the second
nonempty and not ending with whitespace, the first line is the answer taken
verbatim and the second must parse as `RT <integer> <unit-suffix>`: a parse
failure yields `ProtocolError` despite the clean exit, and a successful parse
yields `Ok` with answer, running_time and unit all set. -/
theorem exec_protocol_two_lines_amended
    (run : List String → List Char → LaunchOutcome)
    (command : List String) (part : Nat) (input : List Char)
    (ans rt : List Char)
    (hrun : run (command ++ ["--part", toString part]) input =
      LaunchOutcome.completed 0 (ans ++ '\n' :: (rt ++ ['\n'])))
    (hna : '\n' ∉ ans) (hnr : '\n' ∉ rt)
    (ha1 : pyStripLeft ans = ans) (ha2 : ans ≠ [])
    (hr1 : pyStripRight rt = rt) (hr2 : rt ≠ []) :
    exec_protocol run command part (some input) =
      (Except.ok
        (match _parse_running_time rt with
         | some (t, u) =>
           { status := FPStatus.Ok, answer := some ans,
             running_time := some t, unit := some u }
         | none =>
           { status := FPStatus.ProtocolError, answer := none,
             running_time := none, unit := none }),
       [command ++ ["--part", toString part]]) := by
  have hlines : readLines (ans ++ '\n' :: (rt ++ ['\n'])) =
      [ans ++ ['\n'], rt ++ ['\n']] := by
    rw [readLines_append_nl ans _ hna,
      show rt ++ ['\n'] = rt ++ '\n' :: ([] : List Char) from rfl,
      readLines_append_nl rt _ hnr]
    rfl
  have hsplit : pySplitNl (pyStrip (ans ++ '\n' :: (rt ++ ['\n']))) =
      [ans, rt] := by
    rw [pyStrip_two_lines ans rt ha1 ha2 hr1 hr2,
      pySplitNl_append_nl ans rt hna, pySplitNl_no_nl rt hnr]
  simp only [exec_protocol, _exec_protocol_command, hrun, _read_output,
    hlines]
  rcases hp : _parse_running_time rt with _ | ⟨t, u⟩
  · simp [hp, hsplit]
  · simp [hp, hsplit]

/-- Closed witness for the amended C2: stdout `42\nRT 1500 ns\n` with exit 0
yields `Ok` with answer `42`, running time 1500 and unit nanoseconds. -/
theorem exec_protocol_two_lines_amended_witness :
    exec_protocol (fun _ _ => LaunchOutcome.completed 0 "42\nRT 1500 ns\n".data)
        ["sol"] 1 (some "in".data) =
      (Except.ok { status := FPStatus.Ok, answer := some "42".data,
                   running_time := some 1500,
                   unit := some MetricPrefix.nano },
       [["sol"] ++ ["--part", toString 1]]) :=
  exec_protocol_two_lines_amended _ ["sol"] 1 "in".data "42".data
    "RT 1500 ns".data rfl (by decide) (by decide) (by decide) (by decide)
    (by decide) (by decide)

/-- C3, counterexample: a child exiting 0 with the single stdout line
` 42 ` (padded with spaces) yields answer `42`, not the line itself: the
answer is the whitespace-stripped text, so the claim's "that line as the
answer" fails. -/
theorem exec_protocol_one_line_counterexample :
    exec_protocol (fun _ _ => LaunchOutcome.completed 0 " 42 \n".data)
        ["sol"] 1 (some "in".data) =
      (Except.ok { status := FPStatus.Ok, answer := some "42".data,
                   running_time := none, unit := none },
       [["sol", "--part", "1"]]) ∧
    "42".data ≠ " 42 ".data := by
  refine ⟨by decide, by decide⟩

/-- C3, amended: when the child exits 0 and produces exactly one
newline-terminated stdout line, the result is `Ok` with the line stripped of
leading and trailing whitespace as the answer, and with running_time and unit
both `none`. -/
theorem exec_protocol_one_line_amended
    (run : List String → List Char → LaunchOutcome)
    (command : List String) (part : Nat) (input : List Char)
    (line : List Char)
    (hrun : run (command ++ ["--part", toString part]) input =
      LaunchOutcome.completed 0 (line ++ ['\n']))
    (h : '\n' ∉ line) :
    exec_protocol run command part (some input) =
      (Except.ok { status := FPStatus.Ok, answer := some (pyStrip line),
                   running_time := none, unit := none },
       [command ++ ["--part", toString part]]) := by
  have hlines : readLines (line ++ ['\n']) = [line ++ ['\n']] := by
    rw [show line ++ ['\n'] = line ++ '\n' :: ([] : List Char) from rfl,
      readLines_append_nl line _ h]
    rfl
  have hnostrip : '\n' ∉ pyStrip line := fun hm => h (mem_pyStrip _ _ hm)
  have hsplit : pySplitNl (pyStrip (line ++ ['\n'])) = [pyStrip line] := by
    rw [pyStrip_append_nl, pySplitNl_no_nl _ hnostrip]
  simp only [exec_protocol, _exec_protocol_command, hrun, _read_output,
    hlines]
  simp [hsplit]

/-- Closed witness for the amended C3: stdout `42\n` with exit 0 yields `Ok`
with answer `42` and no timing. -/
theorem exec_protocol_one_line_amended_witness :
    exec_protocol (fun _ _ => LaunchOutcome.completed 0 "42\n".data)
        ["sol"] 1 (some "in".data) =
      (Except.ok { status := FPStatus.Ok,
                   answer := some (pyStrip "42".data),
                   running_time := none, unit := none },
       [["sol"] ++ ["--part", toString 1]]) :=
  exec_protocol_one_line_amended _ ["sol"] 1 "in".data "42".data
    rfl (by decide)

/-! ## Claims about the test orchestrator -/

lemma isReportLine_testingLine (env : OrchEnv) (y d p : Nat) :
    isReportLine (testingLine env y d p) = false := by
  unfold testingLine
  rw [show ("Testing solution for: ".data : List Char) =
    'T' :: "esting solution for: ".data from rfl]
  simp only [List.cons_append, isReportLine]
  decide

lemma isReportLine_outcomeLine (part : Nat) (name : List Char)
    (tc : TestCase) (r : FPResult) :
    isReportLine (outcomeLine part name tc r) = true := by
  unfold outcomeLine
  split
  · split
    · rw [show ("✔ Answer ".data : List Char) = '✔' :: " Answer ".data
        from rfl]
      simp only [List.cons_append, isReportLine]
      decide
    · rw [show ("✘ Answer ".data : List Char) = '✘' :: " Answer ".data
        from rfl]
      simp only [List.cons_append, isReportLine]
      decide
  · rw [show ("✘ Could not run ".data : List Char) =
      '✘' :: " Could not run ".data from rfl]
    simp only [List.cons_append, isReportLine]
    decide

/-- C6: every executed test case contributes exactly one report line:
a success line with the answer when the status is `Ok` and the answer equals
the expected value coerced to text; a failure line showing both the observed
and the expected answer when the status is `Ok` and they differ; and a
failure line naming the test case without an answer for every other status
(`ProtocolError` or `InputDoesNotExists`). -/
theorem test_day_report_line (env : OrchEnv) (year day part : Nat)
    (name : List Char) (tc : TestCase) (r : FPResult)
    (rest : List (List Char × TestCase))
    (hr : env.runFP year day part name tc = Except.ok r) :
    reportLines (runTests env year day part ((name, tc) :: rest)).1 =
      (if r.status = FPStatus.Ok then
         if optAnswerEq r.answer (pyStr tc.answer) then
           ["✔ Answer ".data ++ name ++ " pt".data ++ (toString part).data ++
             ": ".data ++ fmtAnswer r.answer]
         else
           ["✘ Answer ".data ++ name ++ " pt".data ++ (toString part).data ++
             ": ".data ++ fmtAnswer r.answer ++ ". Expected: ".data ++
             pyStr tc.answer]
       else ["✘ Could not run ".data ++ name]) ++
      reportLines (runTests env year day part rest).1 := by
  rcases hrt : runTests env year day part rest with ⟨ls, invs, err⟩
  simp only [runTests, hr, hrt, reportLines, List.filter_cons,
    isReportLine_testingLine, isReportLine_outcomeLine]
  by_cases h1 : r.status = FPStatus.Ok
  · by_cases h2 : optAnswerEq r.answer (pyStr tc.answer) = true
    · simp [outcomeLine, h1, h2]
    · simp [outcomeLine, h1, h2]
  · simp [outcomeLine, h1]

/-- Closed witness for C6: the matching-answer scenario emits exactly one
success report line. -/
theorem test_day_report_line_witness :
    reportLines (runTests envC6 2020 9 1 [("case 1".data, tc7)]).1 =
      ["✔ Answer ".data ++ "case 1".data ++ " pt".data ++
        (toString 1).data ++ ": ".data ++ fmtAnswer (some "7".data)] := by
  have h := test_day_report_line envC6 2020 9 1 "case 1".data tc7
    { status := FPStatus.Ok, answer := some "7".data } [] rfl
  simpa using h

/-- C7: a (year, day, part) tuple with no solution source or an empty fixture
list is skipped silently: no emitted lines, no runner invocations, no
error. -/
theorem test_day_skips_silently (env : OrchEnv) (year day part : Nat)
    (h : env.find_solution year day = false ∨
      env.find_tests year day part = []) :
    test_day env year day part = ([], [], none) := by
  by_cases hs : env.find_solution year day
  · rcases h with h | h
    · rw [hs] at h
      cases h
    · simp [test_day, h]
  · simp [test_day, hs]

/-- Closed witness for C7: an environment with no solution file emits nothing
and never invokes the runner. -/
theorem test_day_skips_silently_witness :
    (envC7.find_solution 2020 9 = false ∨ envC7.find_tests 2020 9 1 = []) ∧
    test_day envC7 2020 9 1 = ([], [], none) :=
  ⟨Or.inl rfl, test_day_skips_silently envC7 2020 9 1 (Or.inl rfl)⟩

/-- C5, counterexample: with a launch failure (stdin cannot be established)
on the (2020, 1, 1) tuple, `Test.execute` propagates the error and the next
combination (2020, 2, 1) is never invoked — the loop does not continue, so
the claim fails. -/
theorem launch_failure_counterexample :
    Test_execute envC5 [2020] [1, 2] [1] =
      ([testingLine envC5 2020 1 1], [(2020, 1, 1, "t".data)],
        some "Could not open stdin") ∧
    (2020, 2, 1, ("t".data : List Char)) ∉
      (Test_execute envC5 [2020] [1, 2] [1]).2.1 := by
  have h1 : Test_execute envC5 [2020] [1, 2] [1] =
      ([testingLine envC5 2020 1 1], [(2020, 1, 1, "t".data)],
        some "Could not open stdin") := rfl
  refine ⟨h1, ?_⟩
  rw [h1]
  decide

/-- C5, amended: a launch-time failure to establish the child's stdin
propagates out of `test_day` as an error for that invocation, and the
`execute` loop — which has no handler — stops there: the remaining
(year, day, part) combinations are not executed. -/
theorem launch_failure_aborts_loop (env : OrchEnv) (y d p : Nat)
    (ts : List (Nat × Nat × Nat)) (e : String)
    (h : (test_day env y d p).2.2 = some e) :
    executeLoop env ((y, d, p) :: ts) =
      ((test_day env y d p).1, (test_day env y d p).2.1, some e) := by
  rcases htd : test_day env y d p with ⟨ls, invs, err⟩
  rw [htd] at h
  simp only at h
  subst h
  simp [executeLoop, htd]

/-- Closed witness for the amended C5: the failing tuple stops the loop
before the second tuple runs. -/
theorem launch_failure_aborts_loop_witness :
    (test_day envC5 2020 1 1).2.2 = some "Could not open stdin" ∧
    executeLoop envC5 [(2020, 1, 1), (2020, 2, 1)] =
      ((test_day envC5 2020 1 1).1, (test_day envC5 2020 1 1).2.1,
        some "Could not open stdin") :=
  ⟨rfl, launch_failure_aborts_loop envC5 2020 1 1 [(2020, 2, 1)] _ rfl⟩

/-! ## Claims about the persistence layer -/

/-- C9: on the scenario of `tests/test_db.py::test_update`, the source's
`update` builds the SET clause from the caller-supplied key columns and the
WHERE clause from the other columns — the inverse of the claim — so the
generated UPDATE matches no row, the database is left unchanged, and the
repository's own test assertion (the stored row equals the updated object)
fails.  The intended semantics stated by the claim (WHERE from the key
columns, SET from the rest) does satisfy the test. -/
theorem table_update_bug :
    (Table.update "TestSqlTable" row0_copy
      [("idx", PyVal.vint 1)]).set_columns = ["idx"] ∧
    (Table.update "TestSqlTable" row0_copy
      [("idx", PyVal.vint 1)]).where_columns = ["value", "text"] ∧
    applyUpdate (Table.update "TestSqlTable" row0_copy
      [("idx", PyVal.vint 1)]) [row0_db] = [row0_db] ∧
    [row0_db] ≠ [row0_copy] ∧
    (Table.update_intended "TestSqlTable" row0_copy
      [("idx", PyVal.vint 1)]).set_columns = ["value", "text"] ∧
    (Table.update_intended "TestSqlTable" row0_copy
      [("idx", PyVal.vint 1)]).where_columns = ["idx"] ∧
    applyUpdate (Table.update_intended "TestSqlTable" row0_copy
      [("idx", PyVal.vint 1)]) [row0_db] = [row0_copy] := by
  refine ⟨rfl, rfl, rfl, by decide, rfl, rfl, rfl⟩

/-- C10: on a bound table, `find`, `find_one` and `find_single` with an empty
match dictionary all fail with the `ValueError` message and leave the
connection state — including the log of executed SQL queries — unchanged. -/
theorem find_empty_dict_error (tn : String) (st : SqlState)
    (h : st.bound = true) :
    Table.find tn [] st =
      (Except.error "find received an empty dictionary", st) ∧
    Table.find_one tn [] st =
      (Except.error "find received an empty dictionary", st) ∧
    Table.find_single tn [] st =
      (Except.error "find received an empty dictionary", st) := by
  refine ⟨?_, ?_, ?_⟩ <;>
    simp [Table.find, Table.find_one, Table.find_single, h]

/-- Closed witness for C10 on a concrete bound connection. -/
theorem find_empty_dict_error_witness :
    stW.bound = true ∧
    Table.find "ECARun" [] stW =
      (Except.error "find received an empty dictionary", stW) ∧
    Table.find_one "ECARun" [] stW =
      (Except.error "find received an empty dictionary", stW) ∧
    Table.find_single "ECARun" [] stW =
      (Except.error "find received an empty dictionary", stW) :=
  ⟨rfl, (find_empty_dict_error "ECARun" stW rfl).1,
    (find_empty_dict_error "ECARun" stW rfl).2.1,
    (find_empty_dict_error "ECARun" stW rfl).2.2⟩

end Esb
